import Mathlib

/-!
Shallow embedding of the health-check subsystem of the msp-toolkit
repository: `src/msp_toolkit/core/health_monitor.py` together with the
data model of `src/msp_toolkit/core/models.py` and the persisted table
of `src/msp_toolkit/storage/models.py`.

Modelling conventions:
* Python floats are modelled as exact rationals (`Rat`); every statement
  proved here is about ordering and equality of measured values and
  thresholds, never about IEEE rounding.
* UTC instants are integers (seconds); `timedelta(days=d)` is `d * 86400`.
* A raised Python exception is an `Except.error`; the external
  collaborators consulted by the engine (the metrics source
  `SystemMetrics` and the device registry `LocalRMMAdapter`) form an
  explicit environment whose queries may themselves raise.
* The History Store is the list of persisted `health_checks` rows in
  insertion order; the SQL query issued by `get_history` is a filter
  followed by a stable sort on timestamp, newest first.
-/

namespace MspToolkit

/-- The `HealthCheckType` enumeration of `core/models.py`. -/
inductive HealthCheckType
  | cpu
  | memory
  | disk
  | services
  | network
  | custom
deriving DecidableEq

/-- The string value of each `HealthCheckType` member. -/
def HealthCheckType.value : HealthCheckType → String
  | .cpu => "cpu"
  | .memory => "memory"
  | .disk => "disk"
  | .services => "services"
  | .network => "network"
  | .custom => "custom"

/-- `HealthCheckType(s)` on a string: the member with that value, or a
`ValueError` (modelled as `Option.none`) when no member matches. -/
def HealthCheckType.ofString? : String → Option HealthCheckType
  | "cpu" => some .cpu
  | "memory" => some .memory
  | "disk" => some .disk
  | "services" => some .services
  | "network" => some .network
  | "custom" => some .custom
  | _ => Option.none

/-- The `HealthCheckStatus` enumeration of `core/models.py`. -/
inductive HealthCheckStatus
  | healthy
  | warning
  | critical
  | unknown
deriving DecidableEq

/-- The string value of each `HealthCheckStatus` member. -/
def HealthCheckStatus.value : HealthCheckStatus → String
  | .healthy => "healthy"
  | .warning => "warning"
  | .critical => "critical"
  | .unknown => "unknown"

/-- `HealthCheckStatus(s)` on a string: the member with that value, or
`Option.none` when no member matches. -/
def HealthCheckStatus.ofString? : String → Option HealthCheckStatus
  | "healthy" => some .healthy
  | "warning" => some .warning
  | "critical" => some .critical
  | "unknown" => some .unknown
  | _ => Option.none

/-- The `Device` model of `core/models.py` (fields used by the services
check; the free-form metadata mapping is a string association list). -/
structure Device where
  id : Option Int := Option.none
  client_id : String
  name : String
  type : String := "workstation"
  rmm_device_id : Option String := Option.none
  last_seen : Option Int := Option.none
  metadata : List (String × String) := []
deriving DecidableEq

/-- Exceptions (`core/exceptions.py`): `ValidationError(field, message)`
keeps its field and message; any other exception raised by a
collaborator is carried as a generic `pyError` with its message. -/
inductive MSPError
  | validationError (field : String) (message : String)
  | pyError (message : String)
deriving DecidableEq

/-- A raw configuration value as read from the YAML file: a number, a
string, or Python `None`. -/
inductive PyVal
  | pyNum (q : Rat)
  | pyStr (s : String)
  | pyNone
deriving DecidableEq

/-- Base-10 value of a list of characters; fails on an empty list or a
non-digit character. -/
def digitsVal? (l : List Char) : Option Nat :=
  match l with
  | [] => Option.none
  | _ =>
    l.foldl
      (fun acc c =>
        acc.bind (fun n => if c.isDigit then some (n * 10 + (c.toNat - 48)) else Option.none))
      (some 0)

/-- Split a character list at the first dot, if any. -/
def splitDot : List Char → List Char × Option (List Char)
  | [] => ([], Option.none)
  | c :: rest =>
    if c = '.' then ([], some rest)
    else
      let p := splitDot rest
      (c :: p.fst, p.snd)

/-- Python `float(s)` on plain decimal literals: an optional sign, an
integer part, and an optional fractional part (a second dot makes the
fractional digits fail). Anything else, such as `"fast"`, fails.
(`float` also accepts exotic forms such as `"inf"` or `"1e5"`; no claim
exercises those, and the configured values in play are plain decimals
or non-numeric words.) -/
def parseDecimal? (s : String) : Option Rat :=
  let signAndRest : Rat × List Char :=
    match s.data with
    | '-' :: rest => (-1, rest)
    | '+' :: rest => (1, rest)
    | l => (1, l)
  let body := splitDot signAndRest.snd
  match body.snd with
  | Option.none => (digitsVal? body.fst).map (fun n => signAndRest.fst * (n : Rat))
  | some fp =>
    match digitsVal? body.fst, digitsVal? fp with
    | some n, some f =>
      some (signAndRest.fst * ((n : Rat) + (f : Rat) / ((10 : Rat) ^ fp.length)))
    | _, _ => Option.none

/-- Python `float(raw)` as used by `_get_threshold`: numbers pass
through, strings are parsed as decimals, `None` raises `TypeError`
(modelled as coercion failure). -/
def pyFloat : PyVal → Option Rat
  | .pyNum q => some q
  | .pyStr s => parseDecimal? s
  | .pyNone => Option.none

/-- Decimal rendering of a Python float inside an f-string. The exact
shortest-repr algorithm is abstracted by an exact-rational rendering;
no claim constrains these message substrings. -/
def floatStr (q : Rat) : String :=
  if q.den = 1 then toString q.num ++ ".0" else toString q.num ++ "/" ++ toString q.den

/-- Python `repr` of the raw value, as interpolated into the threshold
error message of `_get_threshold`. -/
def pyRepr : PyVal → String
  | .pyNum q => floatStr q
  | .pyStr s => "\x27" ++ s ++ "\x27"
  | .pyNone => "None"

/-- The `CheckResult` model of `core/models.py`. The timestamp defaults
to the creation instant, which the engine passes explicitly; the
auxiliary `data` mapping defaults to the empty mapping. -/
structure CheckResult where
  check_type : HealthCheckType
  status : HealthCheckStatus
  message : String
  value : Option Rat := Option.none
  threshold : Option Rat := Option.none
  timestamp : Int
  data : List (String × List Device) := []
deriving DecidableEq

/-- One row of the `health_checks` table (`storage/models.py`). Note
that the table has no column for `CheckResult.data`. -/
structure HealthCheckRecord where
  client_id : String
  check_type : String
  status : String
  message : String
  value : Option Rat
  threshold : Option Rat
  timestamp : Int
deriving DecidableEq

/-- The `HealthSummary` model of `core/models.py`. -/
structure HealthSummary where
  total_checks : Nat
  healthy : Nat
  warnings : Nat
  critical : Nat
  unknown : Nat
  last_check_time : Option Int
deriving DecidableEq

/-- External collaborators of the engine: the metrics source
(`SystemMetrics`) and the device registry (`LocalRMMAdapter`). Each
query either returns a value or raises. -/
structure Env where
  cpu_percent : Except MSPError Rat
  memory_percent : Except MSPError Rat
  disk_percent : Except MSPError Rat
  get_devices : String → Except MSPError (List Device)

/-- `HealthMonitor._get_threshold`: `thresholds.get(key, default)`
followed by coercion to float; a present but non-coercible value raises
`ValidationError` naming the offending config key. -/
def get_threshold (thresholds : List (String × PyVal)) (key : String) (default : Rat) :
    Except MSPError Rat :=
  match thresholds.lookup key with
  | Option.none => .ok default
  | some raw_value =>
    match pyFloat raw_value with
    | some q => .ok q
    | Option.none =>
      .error (.validationError ("health_checks.thresholds." ++ key)
        ("Threshold must be numeric (received " ++ pyRepr raw_value ++ ")"))

/-- The loop of `HealthMonitor._normalize_check_types` over an explicit
list: enum members pass through, strings are parsed, and the first
unrecognized string raises `ValidationError`. -/
def normalizeList : List (HealthCheckType ⊕ String) → Except MSPError (List HealthCheckType)
  | [] => .ok []
  | .inl check :: rest =>
    match normalizeList rest with
    | .ok tail => .ok (check :: tail)
    | .error e => .error e
  | .inr s :: rest =>
    match HealthCheckType.ofString? s with
    | some check =>
      match normalizeList rest with
      | .ok tail => .ok (check :: tail)
      | .error e => .error e
    | Option.none =>
      .error (.validationError "check_types"
        ("Unsupported health check type \x27" ++ s ++ "\x27"))

/-- `HealthMonitor._normalize_check_types`: `None` means the fixed
default sequence. -/
def normalize_check_types :
    Option (List (HealthCheckType ⊕ String)) → Except MSPError (List HealthCheckType)
  | Option.none => .ok [.cpu, .memory, .disk, .services, .network]
  | some check_types => normalizeList check_types

/-- `HealthMonitor._execute_check`. All three thresholds are read (in
the order cpu, memory, disk) before the kind is dispatched; a failing
coercion raises out of the check. The metric or registry query of the
dispatched kind may itself raise, and no handler exists here. -/
def execute_check (env : Env) (thresholds : List (String × PyVal))
    (client_id : String) (now : Int) (check_type : HealthCheckType) :
    Except MSPError CheckResult :=
  match get_threshold thresholds "cpu_percent" 85 with
  | .error e => .error e
  | .ok cpu_threshold =>
  match get_threshold thresholds "memory_percent" 90 with
  | .error e => .error e
  | .ok memory_threshold =>
  match get_threshold thresholds "disk_percent" 85 with
  | .error e => .error e
  | .ok disk_threshold =>
    match check_type with
    | .cpu =>
      match env.cpu_percent with
      | .error e => .error e
      | .ok cpu_usage =>
        .ok { check_type := .cpu,
              status := if cpu_usage < cpu_threshold then .healthy else .warning,
              message := "CPU usage: " ++ floatStr cpu_usage ++ "%",
              value := some cpu_usage,
              threshold := some cpu_threshold,
              timestamp := now }
    | .memory =>
      match env.memory_percent with
      | .error e => .error e
      | .ok memory_usage =>
        .ok { check_type := .memory,
              status := if memory_usage < memory_threshold then .healthy else .warning,
              message := "Memory usage: " ++ floatStr memory_usage ++ "%",
              value := some memory_usage,
              threshold := some memory_threshold,
              timestamp := now }
    | .disk =>
      match env.disk_percent with
      | .error e => .error e
      | .ok disk_usage =>
        .ok { check_type := .disk,
              status := if disk_usage < disk_threshold then .healthy else .warning,
              message := "Disk usage: " ++ floatStr disk_usage ++ "%",
              value := some disk_usage,
              threshold := some disk_threshold,
              timestamp := now }
    | .services =>
      match env.get_devices client_id with
      | .error e => .error e
      | .ok devices =>
        .ok { check_type := .services,
              status := if devices.isEmpty then .warning else .healthy,
              message := toString devices.length ++ " device(s) managed via RMM",
              timestamp := now,
              data := [("devices", devices)] }
    | ct =>
      .ok { check_type := ct,
            status := .healthy,
            message := ct.value ++ " check passed",
            timestamp := now }

/-- The result-accumulating loop of `run_checks`: execute in order,
stopping at the first raised exception. -/
def mapExcept {α β : Type} (f : α → Except MSPError β) : List α → Except MSPError (List β)
  | [] => .ok []
  | a :: as =>
    match f a with
    | .error e => .error e
    | .ok b =>
      match mapExcept f as with
      | .error e => .error e
      | .ok bs => .ok (b :: bs)

/-- The row written by `_persist_results` for one result: only these
seven columns exist; the `data` mapping has no column and is dropped. -/
def toRecord (client_id : String) (result : CheckResult) : HealthCheckRecord :=
  { client_id := client_id,
    check_type := result.check_type.value,
    status := result.status.value,
    message := result.message,
    value := result.value,
    threshold := result.threshold,
    timestamp := result.timestamp }

/-- `HealthMonitor._persist_results`: append one row per result to the
History Store, in result order. -/
def persist_results (client_id : String) (results : List CheckResult)
    (store : List HealthCheckRecord) : List HealthCheckRecord :=
  store ++ results.map (toRecord client_id)

/-- `HealthMonitor.run_checks`. Returns the call outcome together with
the History Store after the call; when the call raises, the store is
unchanged and nothing was persisted. Every result of one call is
stamped with the invocation clock reading `now` (sub-call clock drift
inside a single call is abstracted to one instant). -/
def run_checks (env : Env) (thresholds : List (String × PyVal))
    (client_id : String) (check_types : Option (List (HealthCheckType ⊕ String)))
    (now : Int) (store : List HealthCheckRecord) :
    Except MSPError (List CheckResult) × List HealthCheckRecord :=
  if client_id = "" then
    (.error (.validationError "client_id" "Client ID is required for health checks"), store)
  else
    match normalize_check_types check_types with
    | .error e => (.error e, store)
    | .ok kinds =>
      match mapExcept (execute_check env thresholds client_id now) kinds with
      | .error e => (.error e, store)
      | .ok results => (.ok results, persist_results client_id results store)

/-- Stable insertion into a timestamp-descending list; together with
`sortByTimestampDesc` this models `ORDER BY timestamp DESC` with ties
kept in insertion order. -/
def insertDesc (r : HealthCheckRecord) : List HealthCheckRecord → List HealthCheckRecord
  | [] => [r]
  | x :: xs =>
    if x.timestamp > r.timestamp then x :: insertDesc r xs
    else r :: x :: xs

/-- Stable sort of rows by timestamp, newest first. -/
def sortByTimestampDesc : List HealthCheckRecord → List HealthCheckRecord
  | [] => []
  | x :: xs => insertDesc x (sortByTimestampDesc xs)

/-- Reconstruction of a `CheckResult` from a row inside `get_history`:
`HealthCheckType(...)` and `HealthCheckStatus(...)` raise `ValueError`
on a tag that is not a member; the constructor receives no `data`
argument, so the default empty mapping applies. -/
def recordToResult (record : HealthCheckRecord) : Except MSPError CheckResult :=
  match HealthCheckType.ofString? record.check_type,
        HealthCheckStatus.ofString? record.status with
  | some ct, some st =>
    .ok { check_type := ct,
          status := st,
          message := record.message,
          value := record.value,
          threshold := record.threshold,
          timestamp := record.timestamp }
  | Option.none, _ =>
    .error (.pyError ("ValueError: invalid HealthCheckType " ++ record.check_type))
  | _, Option.none =>
    .error (.pyError ("ValueError: invalid HealthCheckStatus " ++ record.status))

/-- `HealthMonitor.get_history`: keep the rows of the client whose
timestamp is at least `now - timedelta(days=days)`, newest first, and
rebuild `CheckResult` objects from them. -/
def get_history (store : List HealthCheckRecord) (client_id : String)
    (days : Int) (now : Int) : Except MSPError (List CheckResult) :=
  mapExcept recordToResult
    (sortByTimestampDesc
      (store.filter
        (fun r => r.client_id == client_id && decide (now - days * 86400 ≤ r.timestamp))))

/-- `HealthMonitor.get_status_summary`: aggregate over
`get_history(client_id, days=1)`; `last_check_time` is taken from
element `[-1]` of that newest-first list when it is non-empty. -/
def get_status_summary (store : List HealthCheckRecord) (client_id : String)
    (now : Int) : Except MSPError HealthSummary :=
  match get_history store client_id 1 now with
  | .error e => .error e
  | .ok recent_results =>
    .ok { total_checks := recent_results.length,
          healthy := recent_results.countP (fun r => r.status == .healthy),
          warnings := recent_results.countP (fun r => r.status == .warning),
          critical := recent_results.countP (fun r => r.status == .critical),
          unknown := recent_results.countP (fun r => r.status == .unknown),
          last_check_time := recent_results.getLast?.map (fun r => r.timestamp) }

instance {ε α : Type} [DecidableEq ε] [DecidableEq α] : DecidableEq (Except ε α) :=
  fun x y =>
    match x, y with
    | .error e, .error f =>
      if h : e = f then isTrue (by rw [h])
      else isFalse (fun hc => h (by injection hc))
    | .ok a, .ok b =>
      if h : a = b then isTrue (by rw [h])
      else isFalse (fun hc => h (by injection hc))
    | .error _, .ok _ => isFalse (fun hc => Except.noConfusion hc)
    | .ok _, .error _ => isFalse (fun hc => Except.noConfusion hc)

/-- A concrete well-behaved environment: the spec scenario metric values
(CPU 45.2, memory 62, disk 70) and a registry tracking no devices. -/
def env0 : Env :=
  { cpu_percent := .ok (45.2 : Rat),
    memory_percent := .ok 62,
    disk_percent := .ok 70,
    get_devices := fun _ => .ok [] }

/-! ### Helper lemmas -/

/-- A successfully executed check reports the requested kind, is stamped
with the invocation instant, and never classifies as `critical`. -/
theorem execute_check_ok_spec (env : Env) (th : List (String × PyVal))
    (cid : String) (now : Int) (k : HealthCheckType) (r : CheckResult)
    (h : execute_check env th cid now k = .ok r) :
    r.check_type = k ∧ r.timestamp = now ∧ r.status ≠ .critical := by
  unfold execute_check at h
  repeat' split at h
  all_goals
    first
      | exact Except.noConfusion h
      | (injection h with h
         subst h
         exact ⟨rfl, rfl, by simp⟩)

/-- Membership inversion for the check loop: every delivered element
comes from a successful execution of some input element. -/
theorem mapExcept_ok_mem {α β : Type} (f : α → Except MSPError β) :
    ∀ (l : List α) (bs : List β) (b : β),
      mapExcept f l = .ok bs → b ∈ bs → ∃ a ∈ l, f a = .ok b := by
  intro l
  induction l with
  | nil =>
    intro bs b h hb
    unfold mapExcept at h
    injection h with h
    subst h
    cases hb
  | cons a as ih =>
    intro bs b h hb
    unfold mapExcept at h
    cases hfa : f a with
    | error e => rw [hfa] at h; exact Except.noConfusion h
    | ok v =>
      rw [hfa] at h
      cases hrest : mapExcept f as with
      | error e => rw [hrest] at h; exact Except.noConfusion h
      | ok vs =>
        rw [hrest] at h
        injection h with h
        subst h
        cases hb with
        | head => exact ⟨a, List.mem_cons_self a as, hfa⟩
        | tail _ hb =>
          obtain ⟨a2, ha2, hfa2⟩ := ih vs b hrest hb
          exact ⟨a2, List.mem_cons_of_mem a ha2, hfa2⟩

/-- When a left inverse of the per-element step exists, the delivered
list projects back onto the input list: one output per input element,
in input order. -/
theorem mapExcept_ok_map {α β : Type} (f : α → Except MSPError β) (g : β → α)
    (hg : ∀ a b, f a = .ok b → g b = a) :
    ∀ (l : List α) (bs : List β), mapExcept f l = .ok bs → bs.map g = l := by
  intro l
  induction l with
  | nil =>
    intro bs h
    unfold mapExcept at h
    injection h with h
    subst h
    rfl
  | cons a as ih =>
    intro bs h
    unfold mapExcept at h
    cases hfa : f a with
    | error e => rw [hfa] at h; exact Except.noConfusion h
    | ok v =>
      rw [hfa] at h
      cases hrest : mapExcept f as with
      | error e => rw [hrest] at h; exact Except.noConfusion h
      | ok vs =>
        rw [hrest] at h
        injection h with h
        subst h
        simp [List.map_cons, hg a v hfa, ih vs hrest]

/-- A failing first element makes the whole loop raise its error. -/
theorem mapExcept_cons_error {α β : Type} (f : α → Except MSPError β)
    (a : α) (as : List α) (e : MSPError) (h : f a = .error e) :
    mapExcept f (a :: as) = .error e := by
  unfold mapExcept
  rw [h]

/-- Rows rebuilt by `get_history` carry the default (empty) `data`
mapping: the table has no column for it. -/
theorem recordToResult_data (record : HealthCheckRecord) (c : CheckResult)
    (h : recordToResult record = .ok c) : c.data = [] := by
  unfold recordToResult at h
  repeat' split at h
  all_goals
    first
      | exact Except.noConfusion h
      | (injection h with h; subst h; rfl)

/-- The four status counts partition any list of results. -/
theorem length_eq_count_statuses (l : List CheckResult) :
    l.length = l.countP (fun r => r.status == HealthCheckStatus.healthy)
      + l.countP (fun r => r.status == HealthCheckStatus.warning)
      + l.countP (fun r => r.status == HealthCheckStatus.critical)
      + l.countP (fun r => r.status == HealthCheckStatus.unknown) := by
  induction l with
  | nil => rfl
  | cons r l ih =>
    simp only [List.length_cons, List.countP_cons]
    cases hr : r.status <;> simp [hr] <;> omega

/-- A configured threshold value that does not coerce to float raises
`ValidationError` naming the configuration key. -/
theorem get_threshold_bad (th : List (String × PyVal)) (key : String) (default : Rat)
    (v : PyVal) (hv : th.lookup key = some v) (hbad : pyFloat v = Option.none) :
    get_threshold th key default =
      .error (.validationError ("health_checks.thresholds." ++ key)
        ("Threshold must be numeric (received " ++ pyRepr v ++ ")")) := by
  unfold get_threshold
  split
  · next heq => rw [hv] at heq; exact Option.noConfusion heq
  · next raw heq =>
    rw [hv] at heq
    injection heq with heq
    subst heq
    split
    · next q hq => rw [hbad] at hq; exact Option.noConfusion hq
    · rfl

/-- Before dispatching any kind, `_execute_check` coerces the cpu
threshold; a non-coercible value raises out of every check. -/
theorem execute_check_bad_cpu_threshold (env : Env) (th : List (String × PyVal))
    (cid : String) (now : Int) (k : HealthCheckType) (v : PyVal)
    (hv : th.lookup "cpu_percent" = some v) (hbad : pyFloat v = Option.none) :
    execute_check env th cid now k =
      .error (.validationError "health_checks.thresholds.cpu_percent"
        ("Threshold must be numeric (received " ++ pyRepr v ++ ")")) := by
  unfold execute_check
  rw [get_threshold_bad th "cpu_percent" 85 v hv hbad]
  rfl

/-- The normalization loop raises `ValidationError` naming an invalid
input string whenever one is present. -/
theorem normalizeList_invalid (l : List (HealthCheckType ⊕ String)) (s : String)
    (hmem : Sum.inr s ∈ l) (hbad : HealthCheckType.ofString? s = Option.none) :
    ∃ t, Sum.inr t ∈ l ∧ HealthCheckType.ofString? t = Option.none ∧
      normalizeList l = .error (.validationError "check_types"
        ("Unsupported health check type \x27" ++ t ++ "\x27")) := by
  induction l with
  | nil => cases hmem
  | cons a rest ih =>
    cases a with
    | inl check =>
      have hmem2 : Sum.inr s ∈ rest := by
        cases hmem with
        | tail _ hb => exact hb
      obtain ⟨t, ht, hb, he⟩ := ih hmem2
      refine ⟨t, List.mem_cons_of_mem _ ht, hb, ?_⟩
      unfold normalizeList
      rw [he]
    | inr s0 =>
      cases hs0 : HealthCheckType.ofString? s0 with
      | none =>
        refine ⟨s0, List.mem_cons_self _ _, hs0, ?_⟩
        unfold normalizeList
        rw [hs0]
      | some t0 =>
        have hmem2 : Sum.inr s ∈ rest := by
          cases hmem with
          | head => rw [hbad] at hs0; exact Option.noConfusion hs0
          | tail _ hb => exact hb
        obtain ⟨t, ht, hb, he⟩ := ih hmem2
        refine ⟨t, List.mem_cons_of_mem _ ht, hb, ?_⟩
        unfold normalizeList
        rw [hs0, he]

/-- Inversion of a successful `run_checks` call. -/
theorem run_checks_ok_inv (env : Env) (th : List (String × PyVal)) (cid : String)
    (cts : Option (List (HealthCheckType ⊕ String))) (now : Int)
    (store : List HealthCheckRecord) (results : List CheckResult)
    (store2 : List HealthCheckRecord)
    (h : run_checks env th cid cts now store = (.ok results, store2)) :
    ∃ kinds, normalize_check_types cts = .ok kinds ∧
      mapExcept (execute_check env th cid now) kinds = .ok results ∧
      store2 = persist_results cid results store := by
  unfold run_checks at h
  split at h
  · simp at h
  · split at h
    · simp at h
    · next kinds hn =>
      split at h
      · simp at h
      · next res hm =>
        rw [Prod.mk.injEq] at h
        obtain ⟨h1, h2⟩ := h
        injection h1 with h1
        subst h1
        exact ⟨kinds, hn, hm, h2.symm⟩

/-- A `run_checks` call whose normalization fails returns that error
and leaves the store unchanged. -/
theorem run_checks_eq_of_norm_error (env : Env) (th : List (String × PyVal))
    (cid : String) (cts : Option (List (HealthCheckType ⊕ String))) (now : Int)
    (store : List HealthCheckRecord) (e : MSPError)
    (hcid : ¬ cid = "") (hn : normalize_check_types cts = .error e) :
    run_checks env th cid cts now store = (.error e, store) := by
  unfold run_checks
  rw [if_neg hcid]
  split
  · next e2 heq => rw [hn] at heq; injection heq with heq; rw [heq]
  · next kinds heq => rw [hn] at heq; exact Except.noConfusion heq

/-- A `run_checks` call in which some check raises returns that error
and leaves the store unchanged. -/
theorem run_checks_eq_of_exec_error (env : Env) (th : List (String × PyVal))
    (cid : String) (cts : Option (List (HealthCheckType ⊕ String))) (now : Int)
    (store : List HealthCheckRecord) (kinds : List HealthCheckType) (e : MSPError)
    (hcid : ¬ cid = "") (hn : normalize_check_types cts = .ok kinds)
    (hm : mapExcept (execute_check env th cid now) kinds = .error e) :
    run_checks env th cid cts now store = (.error e, store) := by
  unfold run_checks
  rw [if_neg hcid]
  split
  · next e2 heq => rw [hn] at heq; exact Except.noConfusion heq
  · next kinds2 heq =>
    rw [hn] at heq
    injection heq with heq
    subst heq
    split
    · next e2 heq2 => rw [hm] at heq2; injection heq2 with heq2; rw [heq2]
    · next res heq2 => rw [hm] at heq2; exact Except.noConfusion heq2

/-! ### Concrete demonstration values -/

/-- One default run at instant 0 against the demo environment, on an
empty History Store. -/
def demoRun : Except MSPError (List CheckResult) × List HealthCheckRecord :=
  run_checks env0 [] "acme" Option.none 0 []

/-- The results delivered by `demoRun`. -/
def demoResults : List CheckResult := demoRun.fst.toOption.getD []

/-- A single-kind run at instant 10 on an empty store. -/
def runAt10 : Except MSPError (List CheckResult) × List HealthCheckRecord :=
  run_checks env0 [] "acme" (some [Sum.inl HealthCheckType.network]) 10 []

/-- A second single-kind run at instant 20: its store holds two rows for
the same client with distinct timestamps 10 and 20. -/
def runAt20 : Except MSPError (List CheckResult) × List HealthCheckRecord :=
  run_checks env0 [] "acme" (some [Sum.inl HealthCheckType.network]) 20 runAt10.snd

/-- An environment whose metrics source raises on the cpu query. -/
def envFail : Env :=
  { env0 with cpu_percent := .error (.pyError "metrics source unavailable") }

/-- The single result of a network-kind run at instant 0. -/
def rNet : CheckResult :=
  { check_type := .network, status := .healthy, message := "network check passed",
    timestamp := 0 }

/-- The persisted row of `rNet`. -/
def recNet : HealthCheckRecord := toRecord "acme" rNet

/-! ### Claims -/

/-- C1: FAILS on the code (code bug). In a 1-day window holding results
at timestamps 10 and 20, `get_history` returns them newest-first, as
[20, 10], but `get_status_summary` takes element [-1] of that list, so
`last_check_time` is 10 — the OLDEST timestamp in the window — while
the claim and the spec require the newest, 20. -/
theorem c1_last_check_time_is_oldest :
    Except.map (fun l => l.map (fun r : CheckResult => r.timestamp))
        (get_history runAt20.snd "acme" 1 100) = .ok [20, 10] ∧
    Except.map (fun s : HealthSummary => s.last_check_time)
        (get_status_summary runAt20.snd "acme" 100) = .ok (some 10) :=
  ⟨rfl, rfl⟩

/-- C2 counterexample: with a metrics source that raises on the cpu
query, `run_checks("acme", [cpu, memory])` does not degrade the cpu
check to `unknown` and continue with the memory check — the exception
propagates, the whole call aborts with it, and nothing is persisted. -/
theorem c2_counterexample :
    run_checks envFail [] "acme"
        (some [Sum.inl HealthCheckType.cpu, Sum.inl HealthCheckType.memory]) 0 []
      = (.error (.pyError "metrics source unavailable"), []) := rfl

/-- C2 (amended): `_execute_check` has no per-check handler; when the
execution of one individual check raises, the error propagates out of
`run_checks`: the call aborts with that error, returns no results, and
the History Store is unchanged. -/
theorem c2_check_failure_aborts_call (env : Env) (th : List (String × PyVal))
    (cid : String) (cts : Option (List (HealthCheckType ⊕ String))) (now : Int)
    (store : List HealthCheckRecord) (kinds : List HealthCheckType) (e : MSPError)
    (hcid : ¬ cid = "") (hn : normalize_check_types cts = .ok kinds)
    (hm : mapExcept (execute_check env th cid now) kinds = .error e) :
    run_checks env th cid cts now store = (.error e, store) :=
  run_checks_eq_of_exec_error env th cid cts now store kinds e hcid hn hm

/-- C2 (amended) witness: the default batch at the failing environment
aborts with the propagated metrics error and persists nothing. -/
theorem c2_check_failure_aborts_call_witness :
    run_checks envFail [] "acme" Option.none 0 []
      = (.error (.pyError "metrics source unavailable"), []) :=
  c2_check_failure_aborts_call envFail [] "acme" Option.none 0 []
    [.cpu, .memory, .disk, .services, .network] (.pyError "metrics source unavailable")
    (by decide) rfl rfl

/-- C3 counterexample: a fresh default `run_checks` at instant 0
persists 5 rows, yet `get_history("acme", days=0)` issued one second
later (query instant 1) returns the empty list, not the 5 fresh
results: the `days=0` cutoff is the query instant itself. -/
theorem c3_counterexample :
    demoRun.fst = .ok demoResults ∧ demoResults.length = 5 ∧
    demoRun.snd.length = 5 ∧
    get_history demoRun.snd "acme" 0 1 = .ok [] :=
  ⟨rfl, rfl, rfl, rfl⟩

/-- C3 (amended): the `days=0` window keeps only results whose
timestamp is at least the query-time clock reading; once the clock has
advanced strictly past the execution instant, `get_history(client,
days=0)` returns the empty list rather than the just-produced batch. -/
theorem c3_history_days0_empty_after_clock_advance
    (env : Env) (th : List (String × PyVal)) (cid : String) (tE tQ : Int)
    (results : List CheckResult) (store2 : List HealthCheckRecord)
    (h : run_checks env th cid Option.none tE [] = (.ok results, store2))
    (hlt : tE < tQ) :
    get_history store2 cid 0 tQ = .ok [] := by
  obtain ⟨kinds, hn, hm, hs⟩ :=
    run_checks_ok_inv env th cid Option.none tE [] results store2 h
  subst hs
  unfold get_history
  have hfilter :
      (persist_results cid results []).filter
        (fun r => r.client_id == cid && decide (tQ - 0 * 86400 ≤ r.timestamp)) = [] := by
    rw [List.filter_eq_nil_iff]
    intro rec hrec
    simp only [persist_results, List.nil_append, List.mem_map] at hrec
    obtain ⟨res, hres, hrec⟩ := hrec
    obtain ⟨k, hk, hek⟩ :=
      mapExcept_ok_mem (execute_check env th cid tE) kinds results res hm hres
    have ht : res.timestamp = tE := (execute_check_ok_spec env th cid tE k res hek).2.1
    subst hrec
    simp [toRecord, ht]
    omega
  rw [hfilter]
  rfl

/-- C3 (amended) witness: the demo run at instant 0, queried with
days=0 at instant 1, yields the empty history. -/
theorem c3_witness :
    get_history demoRun.snd "acme" 0 1 = .ok [] :=
  c3_history_days0_empty_after_clock_advance env0 [] "acme" 0 1
    demoResults demoRun.snd rfl (by decide)

/-- C4: for the threshold-based kinds (cpu, memory, disk) a
successfully produced result carries the measured value and the
threshold used, its status is `healthy` exactly when value < threshold,
and equality at the threshold classifies as `warning`. -/
theorem c4_threshold_classification (env : Env) (th : List (String × PyVal))
    (cid : String) (now : Int) (k : HealthCheckType) (r : CheckResult)
    (hk : k = HealthCheckType.cpu ∨ k = HealthCheckType.memory ∨ k = HealthCheckType.disk)
    (h : execute_check env th cid now k = .ok r) :
    ∃ q t : Rat, r.value = some q ∧ r.threshold = some t ∧
      (r.status = .healthy ↔ q < t) ∧ (q = t → r.status = .warning) := by
  rcases hk with rfl | rfl | rfl <;>
  · simp only [execute_check] at h
    repeat' split at h
    all_goals
      first
        | exact Except.noConfusion h
        | (injection h with h
           subst h
           rename_i hcond
           first
             | exact ⟨_, _, rfl, rfl, ⟨fun _ => hcond, fun _ => rfl⟩,
                 fun he => absurd (he ▸ hcond) (lt_irrefl _)⟩
             | exact ⟨_, _, rfl, rfl,
                 ⟨fun hw => HealthCheckStatus.noConfusion hw, fun hq => absurd hq hcond⟩,
                 fun _ => rfl⟩)

/-- C4 witness: the spec scenario — CPU measured 45.2 against the
default threshold 85 classifies healthy and carries both numbers. -/
theorem c4_witness :
    ∃ q t : Rat,
      (CheckResult.mk HealthCheckType.cpu HealthCheckStatus.healthy
          ("CPU usage: " ++ floatStr (45.2 : Rat) ++ "%")
          (some (45.2 : Rat)) (some 85) 0 []).value = some q ∧
      (CheckResult.mk HealthCheckType.cpu HealthCheckStatus.healthy
          ("CPU usage: " ++ floatStr (45.2 : Rat) ++ "%")
          (some (45.2 : Rat)) (some 85) 0 []).threshold = some t ∧
      ((CheckResult.mk HealthCheckType.cpu HealthCheckStatus.healthy
          ("CPU usage: " ++ floatStr (45.2 : Rat) ++ "%")
          (some (45.2 : Rat)) (some 85) 0 []).status = .healthy ↔ q < t) ∧
      (q = t →
        (CheckResult.mk HealthCheckType.cpu HealthCheckStatus.healthy
          ("CPU usage: " ++ floatStr (45.2 : Rat) ++ "%")
          (some (45.2 : Rat)) (some 85) 0 []).status = .warning) :=
  c4_threshold_classification env0 [] "acme" 0 HealthCheckType.cpu
    (CheckResult.mk HealthCheckType.cpu HealthCheckStatus.healthy
      ("CPU usage: " ++ floatStr (45.2 : Rat) ++ "%")
      (some (45.2 : Rat)) (some 85) 0 [])
    (Or.inl rfl)
    (by
      have h : (45.2 : Rat) < 85 := by norm_num
      simp [execute_check, get_threshold, env0, h])

/-- C5: a `run_checks` call whose `check_types` list contains a string
that is not a member of `HealthCheckType` raises `ValidationError` on
field `check_types` whose message names an invalid value from the
list, and the History Store is unchanged — nothing is persisted and no
check executes, because normalization precedes the execution loop. -/
theorem c5_invalid_kind_aborts (env : Env) (th : List (String × PyVal))
    (cid : String) (cts : List (HealthCheckType ⊕ String)) (now : Int)
    (store : List HealthCheckRecord) (s : String)
    (hcid : ¬ cid = "") (hmem : Sum.inr s ∈ cts)
    (hbad : HealthCheckType.ofString? s = Option.none) :
    ∃ t, Sum.inr t ∈ cts ∧ HealthCheckType.ofString? t = Option.none ∧
      run_checks env th cid (some cts) now store =
        (.error (.validationError "check_types"
          ("Unsupported health check type \x27" ++ t ++ "\x27")), store) := by
  obtain ⟨t, ht, hb, he⟩ := normalizeList_invalid cts s hmem hbad
  exact ⟨t, ht, hb, run_checks_eq_of_norm_error env th cid (some cts) now store _ hcid he⟩

/-- C5 witness: the list ["cpu", "bogus"] raises naming "bogus" and the
store stays empty. -/
theorem c5_witness :
    ∃ t, Sum.inr t ∈ ([Sum.inr "cpu", Sum.inr "bogus"] : List (HealthCheckType ⊕ String)) ∧
      HealthCheckType.ofString? t = Option.none ∧
      run_checks env0 [] "acme" (some [Sum.inr "cpu", Sum.inr "bogus"]) 0 [] =
        (.error (.validationError "check_types"
          ("Unsupported health check type \x27" ++ t ++ "\x27")), []) :=
  c5_invalid_kind_aborts env0 [] "acme" [Sum.inr "cpu", Sum.inr "bogus"] 0 [] "bogus"
    (by decide) (List.mem_cons_of_mem _ (List.mem_cons_self _ _)) rfl

/-- C6: a configured threshold value that cannot be coerced to float
makes `run_checks` raise `ValidationError` whose field names the
offending configuration key `health_checks.thresholds.cpu_percent`;
the call returns no results and the History Store is unchanged — the
coercion happens before any metric is read or any result persisted. -/
theorem c6_nonnumeric_threshold (env : Env) (th : List (String × PyVal))
    (cid : String) (now : Int) (store : List HealthCheckRecord) (v : PyVal)
    (hcid : ¬ cid = "") (hv : th.lookup "cpu_percent" = some v)
    (hbad : pyFloat v = Option.none) :
    run_checks env th cid Option.none now store =
      (.error (.validationError "health_checks.thresholds.cpu_percent"
        ("Threshold must be numeric (received " ++ pyRepr v ++ ")")), store) :=
  run_checks_eq_of_exec_error env th cid Option.none now store
    [.cpu, .memory, .disk, .services, .network] _ hcid rfl
    (mapExcept_cons_error _ _ _ _
      (execute_check_bad_cpu_threshold env th cid now .cpu v hv hbad))

/-- C6 witness: `cpu_percent: "fast"` raises naming the config key. -/
theorem c6_witness :
    run_checks env0 [("cpu_percent", PyVal.pyStr "fast")] "acme" Option.none 0 [] =
      (.error (.validationError "health_checks.thresholds.cpu_percent"
        ("Threshold must be numeric (received " ++ pyRepr (PyVal.pyStr "fast") ++ ")")), []) :=
  c6_nonnumeric_threshold env0 [("cpu_percent", PyVal.pyStr "fast")] "acme" 0 []
    (PyVal.pyStr "fast") (by decide) rfl rfl

/-- C7: a successful `run_checks` returns exactly one result per
requested kind, in input order, repeats included: the kinds of the
returned results are exactly the normalized input kinds; under the
default `check_types = None` they are the fixed five-kind sequence. -/
theorem c7_one_result_per_kind_in_order (env : Env) (th : List (String × PyVal))
    (cid : String) (cts : Option (List (HealthCheckType ⊕ String))) (now : Int)
    (store : List HealthCheckRecord) (results : List CheckResult)
    (store2 : List HealthCheckRecord)
    (h : run_checks env th cid cts now store = (.ok results, store2)) :
    normalize_check_types cts = .ok (results.map (fun r => r.check_type)) ∧
    (cts = Option.none →
      results.map (fun r => r.check_type) =
        [HealthCheckType.cpu, .memory, .disk, .services, .network]) := by
  obtain ⟨kinds, hn, hm, _⟩ := run_checks_ok_inv env th cid cts now store results store2 h
  have hmap : results.map (fun r => r.check_type) = kinds :=
    mapExcept_ok_map (execute_check env th cid now) (fun r => r.check_type)
      (fun a b hb => (execute_check_ok_spec env th cid now a b hb).1) kinds results hm
  constructor
  · rw [hmap]; exact hn
  · intro hnone
    subst hnone
    have h5 := hn.symm.trans
      (rfl : normalize_check_types Option.none =
        .ok [HealthCheckType.cpu, .memory, .disk, .services, .network])
    injection h5 with h5
    rw [hmap, h5]

/-- C7 witness: the default demo run delivers the five kinds in the
fixed order. -/
theorem c7_witness :
    normalize_check_types Option.none = .ok (demoResults.map (fun r => r.check_type)) ∧
    ((Option.none : Option (List (HealthCheckType ⊕ String))) = Option.none →
      demoResults.map (fun r => r.check_type) =
        [HealthCheckType.cpu, .memory, .disk, .services, .network]) :=
  c7_one_result_per_kind_in_order env0 [] "acme" Option.none 0 [] demoResults demoRun.snd rfl

/-- C8: every summary computed by `get_status_summary` satisfies
total_checks = healthy + warnings + critical + unknown: the four
status counts partition the results of the 1-day window. -/
theorem c8_summary_partition (store : List HealthCheckRecord) (cid : String) (now : Int)
    (s : HealthSummary) (h : get_status_summary store cid now = .ok s) :
    s.total_checks = s.healthy + s.warnings + s.critical + s.unknown := by
  unfold get_status_summary at h
  split at h
  · exact Except.noConfusion h
  · next recent heq =>
    injection h with h
    subst h
    exact length_eq_count_statuses recent

/-- C8 witness: the empty store yields the all-zero summary. -/
theorem c8_witness :
    (HealthSummary.mk 0 0 0 0 0 Option.none).total_checks =
      (HealthSummary.mk 0 0 0 0 0 Option.none).healthy +
      (HealthSummary.mk 0 0 0 0 0 Option.none).warnings +
      (HealthSummary.mk 0 0 0 0 0 Option.none).critical +
      (HealthSummary.mk 0 0 0 0 0 Option.none).unknown :=
  c8_summary_partition [] "acme" 0 (HealthSummary.mk 0 0 0 0 0 Option.none) rfl

/-- C9: no result produced by `run_checks` ever has status `critical`:
cpu, memory and disk classify only healthy or warning, services only
healthy or warning, and every remaining kind is unconditionally
healthy. -/
theorem c9_no_critical (env : Env) (th : List (String × PyVal)) (cid : String)
    (cts : Option (List (HealthCheckType ⊕ String))) (now : Int)
    (store : List HealthCheckRecord) (results : List CheckResult)
    (store2 : List HealthCheckRecord) (r : CheckResult)
    (h : run_checks env th cid cts now store = (.ok results, store2))
    (hr : r ∈ results) : r.status ≠ .critical := by
  obtain ⟨kinds, hn, hm, _⟩ := run_checks_ok_inv env th cid cts now store results store2 h
  obtain ⟨k, hk, hek⟩ := mapExcept_ok_mem (execute_check env th cid now) kinds results r hm hr
  exact (execute_check_ok_spec env th cid now k r hek).2.2

/-- C9 witness: the network result of a single-kind run. -/
theorem c9_witness : rNet.status ≠ .critical :=
  c9_no_critical env0 [] "acme" (some [Sum.inl HealthCheckType.network]) 0 []
    [rNet] [recNet] rNet rfl (List.mem_singleton.mpr rfl)

/-- C10: every result returned by `get_history` carries the empty
auxiliary `data` mapping: the persisted row has columns only for
client_id, check_type, status, message, value, threshold and
timestamp, and reconstruction passes no `data` argument — even when
the in-flight result of `run_checks` (for example the services check)
carried a non-empty mapping. -/
theorem c10_history_data_empty (store : List HealthCheckRecord) (cid : String)
    (days now : Int) (results : List CheckResult) (r : CheckResult)
    (h : get_history store cid days now = .ok results) (hr : r ∈ results) :
    r.data = [] := by
  unfold get_history at h
  obtain ⟨rec, _, hrec⟩ := mapExcept_ok_mem recordToResult _ results r h hr
  exact recordToResult_data rec r hrec

/-- C10 witness: the reconstructed network row carries no data. -/
theorem c10_witness : rNet.data = [] :=
  c10_history_data_empty [recNet] "acme" 7 0 [rNet] rNet rfl (List.mem_singleton.mpr rfl)

end MspToolkit
